import Mathlib

/-!
Verification development for the cgptv2 repository: a shallow embedding of
the Index Computation Engine (`src/api/indexService.js`) and the Geometry
Validation Engine (`BorderVerifier` in the border-verification utility
module), with theorems settling the specification claims about them.

Numeric modelling: JavaScript numbers are embedded as rationals (ℚ).
`Math.round` is embedded as `jsRound` (floor of x + 1/2, matching the
round-half-up-towards-positive-infinity behaviour of `Math.round`).
`Math.sqrt` has no rational counterpart and is passed around as an
uninterpreted oracle parameter `sqrtFn`, exactly as the external
OpenLayers geometry library (`getArea`/`getLength`/`readFeature`) is
passed as an oracle `geomCalc`.  JavaScript division, which can produce
NaN or infinities, is embedded as `jsDiv` into the `JsNum` type.
-/

namespace IndexService

/-- `Math.round` of JavaScript: rounds half away from zero towards +∞. -/
def jsRound (q : ℚ) : ℤ := Int.floor (q + 1/2)

/-- Static per-criterion metadata, from `CRITERION_CONFIG` in
`indexService.js` (fields `type`, `invertScore`, `weight`, `description`,
`category`). -/
structure CriterionConfig where
  type : String
  invertScore : Bool
  weight : ℚ
  description : String
  category : String
deriving DecidableEq

/-- The `CRITERION_CONFIG` constant of `indexService.js`: seven criteria,
five inverted climate criteria plus GDP per capita (not inverted) and food
security (inverted). -/
def CRITERION_CONFIG : List (String × CriterionConfig) :=
  [ ("floods", ⟨"climate", true, 1, "River flood risk index", "Environmental Risk"⟩),
    ("cyclones", ⟨"climate", true, 1, "Tropical cyclone risk index", "Environmental Risk"⟩),
    ("extremeHeat", ⟨"climate", true, 1, "Extreme heat risk index", "Environmental Risk"⟩),
    ("wildfires", ⟨"climate", true, 1, "Wildfire risk index", "Environmental Risk"⟩),
    ("waterScarcity", ⟨"climate", true, 1, "Water scarcity risk index", "Environmental Risk"⟩),
    ("gdpPerCapita", ⟨"economic", false, 1, "GDP per capita (USD)", "Economic Prosperity"⟩),
    ("foodSecurity", ⟨"economic", true, 1, "Food insecurity percentage", "Social Welfare"⟩) ]

/-- `Object.keys(CRITERION_CONFIG)` — the list of criterion ids, in
definition order. -/
def criteria : List String := CRITERION_CONFIG.map Prod.fst

/-- A named weighting scheme from `WEIGHTING_SCHEMES`. -/
structure WeightingScheme where
  name : String
  description : String
  weights : List (String × ℚ)
deriving DecidableEq

/-- Weights of the `equal` scheme: every criterion mapped to 1.0
(`Object.keys(CRITERION_CONFIG).reduce(...)`). -/
def equalWeights : List (String × ℚ) := criteria.map (fun c => (c, 1))

/-- The `WEIGHTING_SCHEMES` registry constant of `indexService.js`. -/
def WEIGHTING_SCHEMES : List (String × WeightingScheme) :=
  [ ("equal", ⟨"Equal Weighting", "All criteria weighted equally", equalWeights⟩),
    ("environmentFocused",
      ⟨"Environment Focused", "Higher weight on environmental factors",
        [("floods", 3/2), ("cyclones", 3/2), ("extremeHeat", 3/2), ("wildfires", 3/2),
         ("waterScarcity", 3/2), ("gdpPerCapita", 4/5), ("foodSecurity", 1)]⟩),
    ("economicFocused",
      ⟨"Economic Focused", "Higher weight on economic factors",
        [("floods", 4/5), ("cyclones", 4/5), ("extremeHeat", 4/5), ("wildfires", 4/5),
         ("waterScarcity", 4/5), ("gdpPerCapita", 2), ("foodSecurity", 3/2)]⟩) ]

/-- Line 317 of `indexService.js`:
`WEIGHTING_SCHEMES[weightingScheme]?.weights || WEIGHTING_SCHEMES.equal.weights`.
A lookup miss (undefined scheme name) falls back to the `equal` scheme's
weights; a present scheme's `weights` object is always truthy. -/
def schemeWeights (schemeName : String) : List (String × ℚ) :=
  match WEIGHTING_SCHEMES.lookup schemeName with
  | some s => s.weights
  | none => equalWeights

/-- The `GlobalStats` record produced by `calculateGlobalStats`. -/
structure Stats where
  min : ℚ
  max : ℚ
  mean : ℚ
  std : ℚ
  p10 : ℚ
  p90 : ℚ
  count : ℕ
  range : ℚ
deriving DecidableEq

/-- The neutral default statistics returned by the `catch` branch of
`calculateGlobalStats` (lines 172-181 of `indexService.js`). -/
def defaultStats : Stats :=
  { min := 0, max := 100, mean := 50, std := 25, p10 := 10, p90 := 90,
    count := 0, range := 100 }

/-- Insert into a list that is sorted ascending. -/
def insertAsc (x : ℚ) : List ℚ → List ℚ
  | [] => [x]
  | y :: ys => if x ≤ y then x :: y :: ys else y :: insertAsc x ys

/-- Embedding of `allValues.sort((a, b) => a - b)` (ascending numeric sort). -/
def sortAsc (l : List ℚ) : List ℚ := l.foldr insertAsc []

/-- Insert into a list that is sorted descending. -/
def insertDesc (x : ℚ) : List ℚ → List ℚ
  | [] => [x]
  | y :: ys => if y ≤ x then x :: y :: ys else y :: insertDesc x ys

/-- Embedding of `[...allCompositeScores].sort((a, b) => b - a)`
(descending numeric sort). -/
def sortDesc (l : List ℚ) : List ℚ := l.foldr insertDesc []

/-- One criterion's raw data series: year → country → value.  A value is
`none` when the raw data point is missing, null, or not a finite number
(the `typeof value === 'number' && !isNaN(value)` test of lines 128-131). -/
abbrev RawSeries := List (ℤ × List (String × Option ℚ))

/-- The values collected by the nested `Object.keys(...).forEach` loops of
`calculateGlobalStats` (lines 123-133): all present, numeric, non-NaN
values across years and countries, in series order. -/
def validValues (data : RawSeries) : List ℚ :=
  (data.map (fun yc => yc.2.filterMap (fun cv => cv.2))).flatten

/-- Embedding of `calculateGlobalStats` (lines 106-183 of
`indexService.js`), minus the memoisation wrapper (modelled separately for
the composite cache; statistics are recomputed here).  The source throws
`No valid data found` on an empty value list; that throw is caught by the
function's own `catch`, which returns the neutral `defaultStats`, so the
embedding returns `defaultStats` directly on that branch.  `sqrtFn` is the
`Math.sqrt` oracle.  The JavaScript percentile indices are
`Math.floor(n * 0.1)` and `Math.floor(n * 0.9)` computed in binary
floating point; they are embedded as exact rational floors. -/
def calculateGlobalStats (sqrtFn : ℚ → ℚ) (data : RawSeries) : Stats :=
  let allValues := validValues data
  if allValues.isEmpty then defaultStats
  else
    let sorted := sortAsc allValues
    let n : ℕ := allValues.length
    let minV := sorted.headD 0
    let maxV := sorted.getLastD 0
    let mean := allValues.sum / (n : ℚ)
    let variance := (allValues.map (fun v => (v - mean) ^ 2)).sum / (n : ℚ)
    let std := sqrtFn variance
    let p10 := sorted.getD (Int.floor ((n : ℚ) * (1/10))).toNat 0
    let p90 := sorted.getD (Int.floor ((n : ℚ) * (9/10))).toNat 0
    { min := minV, max := maxV, mean := mean, std := std, p10 := p10, p90 := p90,
      count := n, range := maxV - minV }

/-- Embedding of `normalizeValue` (lines 188-214 of `indexService.js`).
The argument is `none` when the raw value is not a number or is NaN; the
function then returns `null` (`none`). -/
def normalizeValue (value : Option ℚ) (stats : Stats) (config : CriterionConfig) :
    Option ℚ :=
  match value with
  | none => none
  | some v =>
    let range := stats.p90 - stats.p10
    if range = 0 then some 50
    else
      let clampedValue := max stats.p10 (min stats.p90 v)
      let normalizedValue := (clampedValue - stats.p10) / range
      let normalizedValue := if config.invertScore then 1 - normalizedValue else normalizedValue
      some ((jsRound (normalizedValue * 1000) : ℚ) / 10)

/-- One country's entry in the per-criterion normalized data produced by
`normalizeAndScoreData` (lines 253-268): the fields of that object that
the composite calculator reads.  `normalizedScore` is `none` when
`normalizeValue` returned `null`. -/
structure NormEntry where
  rawValue : ℚ
  normalizedScore : Option ℚ
  confidence : ℚ
deriving DecidableEq

/-- The output of `getAllNormalizedScores(year)`: criterion id → country →
normalized entry.  `getAllNormalizedScores` assigns every criterion a map
(possibly empty on error), so a missing criterion key is read as the empty
map. -/
abbrev NormalizedScores := List (String × List (String × NormEntry))

/-- `normalizedScores[criterion][country]` (line 347). -/
def lookupCrit (ns : NormalizedScores) (criterion country : String) : Option NormEntry :=
  ((ns.lookup criterion).getD []).lookup country

/-- JavaScript `a || b` on a possibly-undefined number: `weights[criterion]
|| 1.0` (line 350) yields the default both when the key is absent and when
the stored weight is 0 (falsy). -/
def jsOrNum (o : Option ℚ) (d : ℚ) : ℚ :=
  match o with
  | some x => if x = 0 then d else x
  | none => d

/-- `Set.add` semantics of the `countries` set (lines 314, 320-324):
append if not already present, preserving insertion order. -/
def addUnique (l : List String) (x : String) : List String :=
  if x ∈ l then l else l ++ [x]

/-- The `countries` set of `calculateCompositeIndex` (lines 320-324): all
countries appearing in any criterion's normalized map, first occurrence
order. -/
def countriesOf (ns : NormalizedScores) : List String :=
  (criteria.map (fun criterion => ((ns.lookup criterion).getD []).map Prod.fst)).flatten.foldl
    addUnique []

/-- The `[...new Set(Object.values(CRITERION_CONFIG).map(c => c.category))]`
list of line 340. -/
def categories : List String :=
  (CRITERION_CONFIG.map (fun p => p.2.category)).foldl addUnique []

/-- Per-category accumulator `{ sum, count, weight }` (line 342). -/
structure CatAcc where
  sum : ℚ
  count : ℕ
  weight : ℚ
deriving DecidableEq

/-- One criterion's component entry stored in `countryScores` (lines
354-363). -/
structure ComponentScore where
  score : ℚ
  rawValue : ℚ
  confidence : ℚ
  weight : ℚ
  category : String
  description : String
  type : String
  invertedScore : Bool
deriving DecidableEq

/-- The per-country mutable accumulators of the first pass of
`calculateCompositeIndex` (lines 331-343). -/
structure CountryAcc where
  countryScores : List (String × ComponentScore)
  validScores : List ℚ
  totalWeight : ℚ
  weightedSum : ℚ
  minConfidence : ℚ
  totalRawValue : ℚ
  categoryScores : List (String × CatAcc)
deriving DecidableEq

/-- Initial accumulator state for one country (lines 331-343). -/
def initCountryAcc : CountryAcc :=
  { countryScores := [], validScores := [], totalWeight := 0, weightedSum := 0,
    minConfidence := 1, totalRawValue := 0,
    categoryScores := categories.map (fun c => (c, ⟨0, 0, 0⟩)) }

/-- Update the named category's accumulator in place (lines 372-374). -/
def updateCat (l : List (String × CatAcc)) (category : String) (score weight : ℚ) :
    List (String × CatAcc) :=
  l.map (fun p =>
    if p.1 = category then
      (p.1, ⟨p.2.sum + score * weight, p.2.count + 1, p.2.weight + weight⟩)
    else p)

/-- The body of the `criteria.forEach` loop of the first pass (lines
346-376): skip the criterion unless the country has an entry with a
non-null normalized score, otherwise accumulate. -/
def stepCriterion (ns : NormalizedScores) (weights : List (String × ℚ)) (country : String)
    (acc : CountryAcc) (criterion : String) : CountryAcc :=
  match lookupCrit ns criterion country with
  | none => acc
  | some criterionData =>
    match criterionData.normalizedScore with
    | none => acc
    | some score =>
      let weight := jsOrNum (weights.lookup criterion) 1
      let config := (CRITERION_CONFIG.lookup criterion).getD ⟨"", false, 1, "", ""⟩
      let category := config.category
      { countryScores := acc.countryScores ++
          [(criterion, ⟨score, criterionData.rawValue, criterionData.confidence, weight,
            category, config.description, config.type, config.invertScore⟩)],
        validScores := acc.validScores ++ [score],
        totalWeight := acc.totalWeight + weight,
        weightedSum := acc.weightedSum + score * weight,
        minConfidence := min acc.minConfidence criterionData.confidence,
        totalRawValue := acc.totalRawValue + criterionData.rawValue,
        categoryScores := updateCat acc.categoryScores category score weight }

/-- Run the first-pass accumulation over all criteria for one country. -/
def foldCountry (ns : NormalizedScores) (weights : List (String × ℚ)) (country : String) :
    CountryAcc :=
  criteria.foldl (stepCriterion ns weights country) initCountryAcc

/-- The completeness gate threshold `Math.ceil(criteria.length / 2)`
(line 379). -/
def gateThreshold : ℕ := (Int.ceil ((criteria.length : ℚ) / 2)).toNat

/-- Whether a country passes the completeness gate (line 379). -/
def passesGate (ns : NormalizedScores) (weights : List (String × ℚ)) (country : String) :
    Bool :=
  gateThreshold ≤ (foldCountry ns weights country).validScores.length

/-- The unrounded composite score pushed onto `allCompositeScores`
(lines 380-381). -/
def rawComposite (ns : NormalizedScores) (weights : List (String × ℚ)) (country : String) :
    ℚ :=
  let acc := foldCountry ns weights country
  if acc.totalWeight > 0 then acc.weightedSum / acc.totalWeight else 0

/-- The `ranking` object added in the second pass (lines 414-418). -/
structure Ranking where
  rank : ℤ
  percentile : ℤ
  totalCountries : ℕ
deriving DecidableEq

/-- A country's `CompositeResult` entry (lines 390-401, plus the `ranking`
field of the second pass; `ranking` is `none` when the second pass did not
run).  `lastUpdated` is the `new Date().toISOString()` timestamp, embedded
as the numeric clock value `now`. -/
structure CompositeEntry where
  compositeScore : ℚ
  componentScores : List (String × ComponentScore)
  categoryScores : List (String × ℚ)
  dataCompleteness : ℚ
  confidence : ℚ
  year : ℤ
  weightingScheme : String
  totalCriteria : ℕ
  validCriteria : ℕ
  lastUpdated : ℤ
  ranking : Option Ranking
deriving DecidableEq

/-- Build one gated country's composite entry (lines 380-401). -/
def mkEntry (ns : NormalizedScores) (weights : List (String × ℚ)) (year : ℤ)
    (schemeName : String) (now : ℤ) (country : String) : CompositeEntry :=
  let acc := foldCountry ns weights country
  let compositeScore := if acc.totalWeight > 0 then acc.weightedSum / acc.totalWeight else 0
  { compositeScore := (jsRound (compositeScore * 10) : ℚ) / 10,
    componentScores := acc.countryScores,
    categoryScores := acc.categoryScores.map (fun p =>
      (p.1, if p.2.weight > 0 then p.2.sum / p.2.weight else 0)),
    dataCompleteness := (acc.validScores.length : ℚ) / (criteria.length : ℚ),
    confidence := acc.minConfidence,
    year := year,
    weightingScheme := schemeName,
    totalCriteria := criteria.length,
    validCriteria := acc.validScores.length,
    lastUpdated := now,
    ranking := none }

/-- JavaScript `Array.prototype.indexOf`: index of the first occurrence,
or -1 when the element is absent. -/
def jsIndexOf (l : List ℚ) (x : ℚ) : ℤ :=
  match l.findIdx? (fun y => y = x) with
  | some i => (i : ℤ)
  | none => -1

/-- The second pass of `calculateCompositeIndex` (lines 409-419): look the
entry's (rounded) `compositeScore` up in the descending-sorted list of
(unrounded) composite scores, derive rank and percentile. -/
def addRanking (sortedScores : List ℚ) (e : CompositeEntry) : CompositeEntry :=
  let rank : ℤ := jsIndexOf sortedScores e.compositeScore + 1
  let percentile := jsRound ((1 - ((rank : ℚ) - 1) / (sortedScores.length : ℚ)) * 100)
  { e with ranking := some ⟨rank, percentile, sortedScores.length⟩ }

/-- The computational core of `calculateCompositeIndex` (lines 311-426 of
`indexService.js`), with the normalized scores passed in (the source
obtains them from `getAllNormalizedScores(year)`, an asynchronous fetch
over the external data source) and the wall clock passed as `now`.  The
first-pass `countries.forEach` loop pushes a country onto both
`compositeResults` and `allCompositeScores` exactly when the completeness
gate holds, so it is rendered as a `filter` followed by `map`s. -/
def calculateCompositeIndexCore (ns : NormalizedScores) (year : ℤ) (schemeName : String)
    (now : ℤ) : List (String × CompositeEntry) :=
  let weights := schemeWeights schemeName
  let included := (countriesOf ns).filter (fun c => passesGate ns weights c)
  let allCompositeScores := included.map (fun c => rawComposite ns weights c)
  let firstPass := included.map (fun c => (c, mkEntry ns weights year schemeName now c))
  if allCompositeScores.isEmpty then firstPass
  else
    let sortedScores := sortDesc allCompositeScores
    firstPass.map (fun p => (p.1, addRanking sortedScores p.2))

/-- The module-level mutable cache state of `indexService.js` (lines
97-100) relevant to the composite cache: `compositeIndexCache` keyed by
the `composite_${year}_${weightingScheme}` string (embedded as the pair)
and `lastCacheUpdate`. -/
structure IndexState where
  compositeIndexCache : List ((ℤ × String) × List (String × CompositeEntry))
  lastCacheUpdate : ℤ
deriving DecidableEq

/-- `CACHE_DURATION = 5 * 60 * 1000` (line 101). -/
def CACHE_DURATION : ℤ := 5 * 60 * 1000

/-- Embedding of `calculateCompositeIndex` with its cache behaviour (lines
302-309 and 422-426): return the cached result when present and fresh,
otherwise compute via the core, store it and advance `lastCacheUpdate`. -/
def calculateCompositeIndex (st : IndexState) (now : ℤ) (ns : NormalizedScores)
    (year : ℤ) (schemeName : String) :
    List (String × CompositeEntry) × IndexState :=
  let cacheKey := (year, schemeName)
  match st.compositeIndexCache.lookup cacheKey with
  | some cached =>
    if now - st.lastCacheUpdate < CACHE_DURATION then (cached, st)
    else
      let compositeResults := calculateCompositeIndexCore ns year schemeName now
      (compositeResults,
        ⟨(cacheKey, compositeResults) :: st.compositeIndexCache, now⟩)
  | none =>
    let compositeResults := calculateCompositeIndexCore ns year schemeName now
    (compositeResults,
      ⟨(cacheKey, compositeResults) :: st.compositeIndexCache, now⟩)

/-- Whether the country has a valid (non-null) normalized score for the
criterion — the condition of line 349. -/
def isValidFor (ns : NormalizedScores) (criterion country : String) : Bool :=
  match lookupCrit ns criterion country with
  | some criterionData => criterionData.normalizedScore.isSome
  | none => false

/-- Number of criteria with a valid normalized score for the country. -/
def validCriteriaCount (ns : NormalizedScores) (country : String) : ℕ :=
  criteria.countP (fun criterion => isValidFor ns criterion country)

/-- Concrete normalized-score input used for the claim-C1 evaluation: one
country `AAA` with exactly four valid criteria, scored 10.1, 10.2, 10.2,
10.2 — the weighted average 10.175 rounds to 10.2, which does not occur in
the unrounded score list. -/
def testNsC1 : NormalizedScores :=
  [ ("floods", [("AAA", ⟨1, some (101/10), 1⟩)]),
    ("cyclones", [("AAA", ⟨1, some (51/5), 1⟩)]),
    ("extremeHeat", [("AAA", ⟨1, some (51/5), 1⟩)]),
    ("wildfires", [("AAA", ⟨1, some (51/5), 1⟩)]) ]

end IndexService

namespace BorderVerification

open IndexService (jsRound)

/-! Shallow embedding of the `BorderVerifier` class of the
border-verification utility module.  The mutable `result` object threaded
through the source's check methods becomes an explicitly passed
`FeatureResult`; a JavaScript `TypeError` thrown by a property access on a
missing value becomes the `.error` case of `Except`, carrying the error
message together with the result as mutated so far (the source's
`try/catch` in `validateSingleFeature` still sees those mutations).  The
OpenLayers calls (`readFeature`, `getArea`, `getLength`) are an oracle
`geomCalc` returning area (m²) and length (m) or a thrown error message;
`Math.sqrt` is an oracle `sqrtFn`. -/

/-- A coordinate pair `[lon, lat]`. -/
abbrev Coord := ℚ × ℚ

/-- A linear ring: a list of coordinate pairs. -/
abbrev LinearRing := List Coord

/-- A GeoJSON geometry value as the validator distinguishes them:
a `Polygon` with a ring array, a `MultiPolygon` with a polygon array, or
anything else (`otherG typeName`): a geometry whose `type` is the given
value (possibly missing) and whose `coordinates` field is absent or not an
array — the validator only ever reads `coordinates` when `type` is
`Polygon` or `MultiPolygon`, so `otherG (some "Polygon")` is exactly a
Polygon-typed geometry with a missing/invalid coordinates array. -/
inductive GeometryData where
  | polygonG (rings : List LinearRing)
  | multiPolygonG (polys : List (List LinearRing))
  | otherG (typeName : Option String)
deriving DecidableEq

/-- The `geometry.type` accessor. -/
def geomType : GeometryData → Option String
  | .polygonG _ => some "Polygon"
  | .multiPolygonG _ => some "MultiPolygon"
  | .otherG t => t

/-- The `properties` object fields the validator reads. -/
structure Props where
  ISO_A3 : Option String
  NAME : Option String
deriving DecidableEq

/-- A GeoJSON feature as the validator reads it: each field may be
missing. -/
structure Feature where
  type : Option String
  properties : Option Props
  geometry : Option GeometryData
deriving DecidableEq

/-- `feature.properties?.ISO_A3`. -/
def countryCodeOf (f : Feature) : Option String :=
  f.properties.bind (fun p => p.ISO_A3)

/-- Issue severity: `type` field of an `Issue` (`CRITICAL` appears only in
the batch-level missing-data check). -/
inductive IssueType where
  | ERROR
  | WARNING
  | INFO
  | CRITICAL
deriving DecidableEq

/-- A validation issue `{type, category, message, feature?}`. -/
structure Issue where
  type : IssueType
  category : String
  message : String
  feature : Option String := none
deriving DecidableEq

/-- A JavaScript number that may be NaN or infinite (division results). -/
inductive JsNum where
  | num (q : ℚ)
  | nan
  | inf
  | negInf
deriving DecidableEq

/-- JavaScript division: `0/0` is NaN, `x/0` is a signed infinity. -/
def jsDiv (a b : ℚ) : JsNum :=
  if b = 0 then (if a = 0 then JsNum.nan else if a > 0 then JsNum.inf else JsNum.negInf)
  else JsNum.num (a / b)

/-- The `result.metrics` fields, each absent until its check runs.  The
source's `complexityRatio` metric is named `complexityRatioVal` here. -/
structure Metrics where
  totalCoordinates : Option ℕ := none
  invalidCoordinates : Option ℕ := none
  coordinateValidityRate : Option JsNum := none
  areaKm2 : Option ℤ := none
  perimeterKm : Option ℤ := none
  complexityRatioVal : Option JsNum := none
  vertexCount : Option ℕ := none
  averageSegmentLength : Option ℚ := none
deriving DecidableEq

/-- The per-feature validation result object (lines 94-100 of the
validator). -/
structure FeatureResult where
  isValid : Bool
  issues : List Issue
  metrics : Metrics
  countryCode : Option String
  countryName : Option String
deriving DecidableEq

/-- The fresh `result` object built at the top of
`validateSingleFeature`. -/
def initResult (f : Feature) : FeatureResult :=
  { isValid := true, issues := [], metrics := {},
    countryCode := countryCodeOf f,
    countryName := f.properties.bind (fun p => p.NAME) }

/-- JavaScript falsiness of an optional string (`undefined` and `""` are
falsy). -/
def strFalsy (o : Option String) : Bool :=
  match o with
  | none => true
  | some s => s = ""

/-- `VALIDATION_THRESHOLDS` constants. -/
def MIN_AREA_KM2 : ℚ := 1
def MAX_AREA_KM2 : ℚ := 20000000
def MIN_PERIMETER_KM : ℚ := 10
def MAX_VERTICES : ℕ := 50000
def COORDINATE_PRECISION : ℕ := 6

/-- `SPECIAL_CASES` lists. -/
def ARCHIPELAGOS : List String := ["IDN", "PHL", "JPN", "GRC", "NOR"]
def ENCLAVES : List String := ["VAT", "SMR", "LSO"]
def COMPLEX_BORDERS : List String := ["IND", "PAK", "BGR", "TUR"]
def DISPUTED_TERRITORIES : List String := ["PSE", "TWN", "XKX"]
def TRANSCONTINENTAL : List String := ["RUS", "TUR", "EGY", "KAZ"]

/-- `list.includes(countryCode)`: an undefined code is in no list. -/
def memOpt (o : Option String) (l : List String) : Bool :=
  match o with
  | some c => l.contains c
  | none => false

/-- The generic message of a modelled JavaScript `TypeError` from reading
a property of `undefined`. -/
def typeErrorMsg : String := "Cannot read properties of undefined"

/-- Issues appended by `validateFeatureStructure` (lines 137-173): each of
the four structure checks contributes its own ERROR. -/
def structIssues (f : Feature) : List Issue :=
  (if f.type ≠ some "Feature" then
    [{ type := IssueType.ERROR, category := "STRUCTURE", message := "Invalid feature type" }]
   else [])
  ++ (if f.properties.isNone then
    [{ type := IssueType.ERROR, category := "STRUCTURE", message := "Missing properties object" }]
   else [])
  ++ (if strFalsy (countryCodeOf f) then
    [{ type := IssueType.ERROR, category := "STRUCTURE", message := "Missing ISO_A3 country code" }]
   else [])
  ++ (if f.geometry.isNone then
    [{ type := IssueType.ERROR, category := "STRUCTURE", message := "Missing geometry object" }]
   else [])

/-- `validateFeatureStructure` (lines 137-173): every failing check pushes
an ERROR and sets `isValid = false`; rendered as appending the check's
issue list and clearing `isValid` exactly when that list is nonempty. -/
def validateFeatureStructure (f : Feature) (r : FeatureResult) : FeatureResult :=
  { r with isValid := if (structIssues f).isEmpty then r.isValid else false,
           issues := r.issues ++ structIssues f }

/-- Issues for one ring (lines 235-257): fewer than four coordinate pairs
is an ERROR and skips the closure check for that ring (the early
`return`); an open ring (first point differs from last, exact equality) is
an ERROR.  The source interpolates the ring index into the message. -/
def ringIssues (idx : ℕ) (ring : LinearRing) : List Issue :=
  if ring.length < 4 then
    [{ type := IssueType.ERROR, category := "COORDINATES",
       message := "Ring " ++ toString idx ++ " has insufficient coordinates (minimum 4 required)" }]
  else if ring.headD (0, 0) ≠ ring.getLastD (0, 0) then
    [{ type := IssueType.ERROR, category := "COORDINATES",
       message := "Ring " ++ toString idx ++ " is not closed" }]
  else []

/-- Issues appended by `validatePolygonCoordinates` (lines 223-258). -/
def polygonCoordIssues (rings : List LinearRing) : List Issue :=
  if rings.isEmpty then
    [{ type := IssueType.ERROR, category := "COORDINATES",
       message := "Invalid polygon coordinates structure" }]
  else (rings.enum.map (fun p => ringIssues p.1 p.2)).flatten

/-- `validatePolygonCoordinates` (lines 223-258). -/
def validatePolygonCoordinates (rings : List LinearRing) (r : FeatureResult) : FeatureResult :=
  { r with isValid := if (polygonCoordIssues rings).isEmpty then r.isValid else false,
           issues := r.issues ++ polygonCoordIssues rings }

/-- Issues appended by `validateMultiPolygonCoordinates` (lines 263-283):
only the empty-structure check reaches the real result — see
`validateMultiPolygonCoordinates`. -/
def multiPolygonCoordIssues (polys : List (List LinearRing)) : List Issue :=
  if polys.isEmpty then
    [{ type := IssueType.ERROR, category := "COORDINATES",
       message := "Invalid multi-polygon coordinates structure" }]
  else []

/-- `validateMultiPolygonCoordinates` (lines 263-283).  After the
empty-structure check, the source iterates the polygons and calls
`validatePolygonCoordinates(polygon, {...result, issues:
result.issues.map(...)})`: the callee receives a spread copy of `result`
whose `issues` is a freshly mapped array, so the ring errors it records
(and its `isValid = false`) land on that discarded copy and never reach
the real result, which is returned unchanged. -/
def validateMultiPolygonCoordinates (polys : List (List LinearRing)) (r : FeatureResult) :
    FeatureResult :=
  let _ : List FeatureResult := polys.enum.map (fun p =>
    validatePolygonCoordinates p.2
      { r with issues := r.issues.map (fun i =>
          { i with message := "Polygon " ++ toString p.1 ++ ": " ++ i.message }) })
  { r with isValid := if (multiPolygonCoordIssues polys).isEmpty then r.isValid else false,
           issues := r.issues ++ multiPolygonCoordIssues polys }

/-- `validTypes` of line 191. -/
def validTypes : List String := ["Polygon", "MultiPolygon"]

/-- The issues `validateGeometry` appends for a present geometry (lines
181-217): missing type, invalid type and missing coordinates each ERROR
and return early; otherwise dispatch to the ring checks. -/
def geomCheckIssuesG (g : GeometryData) : List Issue :=
  if strFalsy (geomType g) then
    [{ type := IssueType.ERROR, category := "GEOMETRY", message := "Missing geometry type" }]
  else if !(validTypes.contains ((geomType g).getD "")) then
    [{ type := IssueType.ERROR, category := "GEOMETRY",
       message := "Invalid geometry type: " ++ (geomType g).getD ""
         ++ ". Expected Polygon or MultiPolygon" }]
  else
    match g with
    | .polygonG rings => polygonCoordIssues rings
    | .multiPolygonG polys => multiPolygonCoordIssues polys
    | .otherG _ =>
      [{ type := IssueType.ERROR, category := "GEOMETRY",
         message := "Missing or invalid coordinates array" }]

/-- `validateGeometry` (lines 178-218).  `const geometry =
feature.geometry; if (!geometry.type)` throws a `TypeError` when the
geometry is missing — the `.error` case, carrying the untouched result for
the caller's catch. -/
def validateGeometry (f : Feature) (r : FeatureResult) :
    Except (String × FeatureResult) FeatureResult :=
  match f.geometry with
  | none => .error (typeErrorMsg, r)
  | some g =>
    if strFalsy (geomType g) then
      .ok { r with isValid := false, issues := r.issues ++ geomCheckIssuesG g }
    else if !(validTypes.contains ((geomType g).getD "")) then
      .ok { r with isValid := false, issues := r.issues ++ geomCheckIssuesG g }
    else
      match g with
      | .polygonG rings => .ok (validatePolygonCoordinates rings r)
      | .multiPolygonG polys => .ok (validateMultiPolygonCoordinates polys r)
      | .otherG _ =>
        .ok { r with isValid := false, issues := r.issues ++ geomCheckIssuesG g }

/-- `extractAllCoordinates` (lines 467-483): flatten all rings; reading
`geometry.type` of a missing geometry throws, as does
`geometry.coordinates.forEach` when `type` is Polygon/MultiPolygon but
`coordinates` is absent; any other geometry type yields no coordinates. -/
def extractAllCoordinatesE : Option GeometryData → Except String (List Coord)
  | none => .error typeErrorMsg
  | some (.polygonG rings) => .ok rings.flatten
  | some (.multiPolygonG polys) => .ok polys.flatten.flatten
  | some (.otherG t) =>
    if t = some "Polygon" ∨ t = some "MultiPolygon" then .error typeErrorMsg
    else .ok []

/-- The coordinates list a feature yields when extraction succeeds. -/
def extractedCoords (f : Feature) : List Coord :=
  (extractAllCoordinatesE f.geometry).toOption.getD []

/-- Number of decimal digits of a coordinate component: the length of the
fraction part of the JavaScript string rendering.  A double always has a
terminating decimal expansion; the model finds the least number of digits
that makes the value integral (capped at 40 — above the 6-digit threshold
either way).  The source's string interpolation of the offending values
into messages is elided. -/
def decimalDigits (q : ℚ) : ℕ :=
  ((List.range 40).find? (fun d => (q * 10 ^ d).den == 1)).getD 40

/-- One iteration of the coordinate loop of `validateCoordinates` (lines
293-333), over the state (totalCoords, invalidCoords, issues appended so
far): longitude out of `[-180, 180]` and latitude out of `[-90, 90]` each
count and (while `invalidCoords <= 5`) report an ERROR; excessive decimal
precision is a WARNING. -/
def coordStep (state : ℕ × ℕ × List Issue) (coord : Coord) : ℕ × ℕ × List Issue :=
  let total := state.1 + 1
  let invalid := state.2.1
  let issues := state.2.2
  let lon := coord.1
  let lat := coord.2
  let invalid1 := if lon < -180 ∨ lon > 180 then invalid + 1 else invalid
  let issues1 :=
    if lon < -180 ∨ lon > 180 then
      (if invalid1 ≤ 5 then
        issues ++
          [{ type := IssueType.ERROR, category := "COORDINATES",
             message := "Invalid longitude (must be between -180 and 180)" }]
       else issues)
    else issues
  let invalid2 := if lat < -90 ∨ lat > 90 then invalid1 + 1 else invalid1
  let issues2 :=
    if lat < -90 ∨ lat > 90 then
      (if invalid2 ≤ 5 then
        issues1 ++
          [{ type := IssueType.ERROR, category := "COORDINATES",
             message := "Invalid latitude (must be between -90 and 90)" }]
       else issues1)
    else issues1
  let issues3 :=
    if COORDINATE_PRECISION < decimalDigits lon ∨ COORDINATE_PRECISION < decimalDigits lat then
      issues2 ++
        [{ type := IssueType.WARNING, category := "COORDINATES",
           message := "High coordinate precision detected" }]
    else issues2
  (total, invalid2, issues3)

/-- The whole coordinate loop: totals, invalid count and issues. -/
def coordScan (coords : List Coord) : ℕ × ℕ × List Issue :=
  coords.foldl coordStep (0, 0, [])

/-- `((totalCoords - invalidCoords) / totalCoords) * 100` (line 337):
an unguarded JavaScript division — `0/0` when no coordinate was
extracted. -/
def validityRate (total invalid : ℕ) : JsNum :=
  jsDiv (((total : ℚ) - (invalid : ℚ)) * 100) (total : ℚ)

/-- `validateCoordinates` (lines 288-342). -/
def validateCoordinates (f : Feature) (r : FeatureResult) :
    Except (String × FeatureResult) FeatureResult :=
  match extractAllCoordinatesE f.geometry with
  | .error msg => .error (msg, r)
  | .ok coords =>
    let scan := coordScan coords
    .ok { r with
      issues := r.issues ++ scan.2.2,
      isValid := if 0 < scan.2.1 then false else r.isValid,
      metrics := { r.metrics with
        totalCoordinates := some scan.1,
        invalidCoordinates := some scan.2.1,
        coordinateValidityRate := some (validityRate scan.1 scan.2.1) } }

/-- The exact rational value of the double constant `Math.PI`. -/
def jsPI : ℚ := 884279719003555 / 281474976710656

/-- The type of the OpenLayers oracle: `readFeature` + `getArea` +
`getLength`, returning area in m² and length in m, or throwing. -/
abbrev GeomCalc := Feature → Except String (ℚ × ℚ)

/-- The WARNING issues of `validateAreaAndPerimeter` (lines 361-384). -/
def areaWarnings (area perimeter : ℚ) : List Issue :=
  (if area < MIN_AREA_KM2 then
    [{ type := IssueType.WARNING, category := "METRICS", message := "Very small area" }]
   else [])
  ++ (if area > MAX_AREA_KM2 then
    [{ type := IssueType.WARNING, category := "METRICS", message := "Very large area" }]
   else [])
  ++ (if perimeter < MIN_PERIMETER_KM then
    [{ type := IssueType.WARNING, category := "METRICS", message := "Very small perimeter" }]
   else [])

/-- `validateAreaAndPerimeter` (lines 347-397): convert the oracle's area
to km² and length to km, record metrics and threshold WARNINGs, and
compute `complexityRatio = perimeter / (2 * sqrt(PI * area))`.  Its own
`catch` turns an oracle throw into an ERROR issue of category `METRICS` —
note that, unlike every other ERROR site in the validator, this catch
block does not set `result.isValid = false`. -/
def validateAreaAndPerimeter (geomCalc : GeomCalc) (sqrtFn : ℚ → ℚ) (f : Feature)
    (r : FeatureResult) : FeatureResult :=
  match geomCalc f with
  | .error msg =>
    { r with issues := r.issues ++
        [{ type := IssueType.ERROR, category := "METRICS",
           message := "Failed to calculate area/perimeter: " ++ msg }] }
  | .ok (areaM2, lengthM) =>
    let area := areaM2 / 1000000
    let perimeter := lengthM / 1000
    { r with
      issues := r.issues ++ areaWarnings area perimeter,
      metrics := { r.metrics with
        areaKm2 := some (jsRound area),
        perimeterKm := some (jsRound perimeter),
        complexityRatioVal := some (jsDiv perimeter (2 * sqrtFn (jsPI * area))) } }

/-- The issues `validateAreaAndPerimeter` appends, as a function of the
feature. -/
def areaCheckIssues (geomCalc : GeomCalc) (f : Feature) : List Issue :=
  match geomCalc f with
  | .error msg =>
    [{ type := IssueType.ERROR, category := "METRICS",
       message := "Failed to calculate area/perimeter: " ++ msg }]
  | .ok (areaM2, lengthM) => areaWarnings (areaM2 / 1000000) (lengthM / 1000)

/-- Distances between consecutive coordinates (lines 420-426):
`sqrt((lon2-lon1)^2 + (lat2-lat1)^2)` per segment. -/
def segmentLengths (sqrtFn : ℚ → ℚ) : List Coord → List ℚ
  | [] => []
  | [_] => []
  | a :: b :: rest =>
    sqrtFn ((b.1 - a.1) ^ 2 + (b.2 - a.2) ^ 2) :: segmentLengths sqrtFn (b :: rest)

/-- The WARNING `validateBorderComplexity` may append. -/
def complexityCheckIssues (f : Feature) : List Issue :=
  if MAX_VERTICES < (extractedCoords f).length then
    [{ type := IssueType.WARNING, category := "COMPLEXITY",
       message := "High vertex count (may impact performance)" }]
  else []

/-- `validateBorderComplexity` (lines 402-429): vertex count, optional
WARNING above the threshold, and average segment length (0 when there are
no segments). -/
def validateBorderComplexity (sqrtFn : ℚ → ℚ) (f : Feature) (r : FeatureResult) :
    Except (String × FeatureResult) FeatureResult :=
  match extractAllCoordinatesE f.geometry with
  | .error msg => .error (msg, r)
  | .ok coords =>
    let warn :=
      if MAX_VERTICES < coords.length then
        [{ type := IssueType.WARNING, category := "COMPLEXITY",
           message := "High vertex count (may impact performance)" }]
      else []
    let segs := segmentLengths sqrtFn coords
    let avg := if 0 < segs.length then segs.sum / (segs.length : ℚ) else 0
    .ok { r with
      issues := r.issues ++ warn,
      metrics := { r.metrics with
        vertexCount := some coords.length,
        averageSegmentLength := some avg } }

/-- The INFO issues for enclave and complex-border countries (lines
447-461). -/
def specialTailIssues (code : Option String) : List Issue :=
  (if memOpt code ENCLAVES then
    [{ type := IssueType.INFO, category := "SPECIAL_CASE",
       message := "Enclave country - verify surrounding country borders" }]
   else [])
  ++ (if memOpt code COMPLEX_BORDERS then
    [{ type := IssueType.INFO, category := "SPECIAL_CASE",
       message := "Complex border country - extra validation recommended" }]
   else [])

/-- The archipelago WARNING (lines 437-445), which reads
`feature.geometry.type` and so needs the geometry present; it is only
reached with a present geometry because a missing one already threw in
`validateGeometry`. -/
def archipelagoIssues (f : Feature) : List Issue :=
  if memOpt (countryCodeOf f) ARCHIPELAGOS then
    match f.geometry with
    | some g =>
      if geomType g ≠ some "MultiPolygon" then
        [{ type := IssueType.WARNING, category := "SPECIAL_CASE",
           message := "Archipelago country should use MultiPolygon geometry" }]
      else []
    | none => []
  else []

/-- All issues the special-case check appends. -/
def specialCheckIssues (f : Feature) : List Issue :=
  archipelagoIssues f ++ specialTailIssues (countryCodeOf f)

/-- `validateSpecialCases` (lines 434-462). -/
def validateSpecialCases (f : Feature) (r : FeatureResult) :
    Except (String × FeatureResult) FeatureResult :=
  if memOpt (countryCodeOf f) ARCHIPELAGOS then
    match f.geometry with
    | none => .error (typeErrorMsg, r)
    | some g =>
      .ok { r with issues := r.issues ++
        (if geomType g ≠ some "MultiPolygon" then
          [{ type := IssueType.WARNING, category := "SPECIAL_CASE",
             message := "Archipelago country should use MultiPolygon geometry" }]
         else []) ++ specialTailIssues (countryCodeOf f) }
  else
    .ok { r with issues := r.issues ++ specialTailIssues (countryCodeOf f) }

/-- The geometry-check issues as a function of the feature (empty when the
geometry is missing — `validateGeometry` then throws before pushing
anything). -/
def geomCheckIssues (f : Feature) : List Issue :=
  match f.geometry with
  | none => []
  | some g => geomCheckIssuesG g

/-- The coordinate-check issues as a function of the feature. -/
def coordCheckIssues (f : Feature) : List Issue :=
  (coordScan (extractedCoords f)).2.2

/-- The catch-block issue of `validateSingleFeature` (lines 121-129). -/
def validationFailureIssue (f : Feature) : Issue :=
  { type := IssueType.ERROR, category := "VALIDATION_FAILURE",
    message := "Validation failed: " ++ typeErrorMsg,
    feature := countryCodeOf f }

/-- Whether no check of the pipeline throws for this geometry: reading a
missing geometry throws in `validateGeometry`, and a Polygon/MultiPolygon
type with a missing coordinates array throws in `extractAllCoordinates`
(`geometry.coordinates.forEach`). -/
def geomNoThrow : Option GeometryData → Bool
  | none => false
  | some (.otherG t) =>
    if t = some "Polygon" ∨ t = some "MultiPolygon" then false else true
  | some _ => true

/-- `validateSingleFeature` (lines 93-132): the six checks in order inside
a `try`, with the `catch` converting a thrown error into an ERROR issue of
category `VALIDATION_FAILURE` on the result as mutated so far and setting
`isValid = false`. -/
def validateSingleFeature (geomCalc : GeomCalc) (sqrtFn : ℚ → ℚ) (f : Feature) :
    FeatureResult :=
  let pipeline : Except (String × FeatureResult) FeatureResult := do
    let r := validateFeatureStructure f (initResult f)
    let r ← validateGeometry f r
    let r ← validateCoordinates f r
    let r := validateAreaAndPerimeter geomCalc sqrtFn f r
    let r ← validateBorderComplexity sqrtFn f r
    let r ← validateSpecialCases f r
    pure r
  match pipeline with
  | .ok r => r
  | .error (msg, r) =>
    { r with isValid := false,
             issues := r.issues ++
               [{ type := IssueType.ERROR, category := "VALIDATION_FAILURE",
                  message := "Validation failed: " ++ msg,
                  feature := countryCodeOf f }] }

/-- The aggregate counters of `validateBorders` (lines 43-88; the
statistics, recommendations and per-country `Map` storage are out of the
claims' scope and elided). -/
structure BatchResults where
  totalFeatures : ℕ
  validFeatures : ℕ
  invalidFeatures : ℕ
  issues : List Issue
deriving DecidableEq

/-- One iteration of the per-feature loop of `validateBorders` (lines
65-80): the feature is validated, counted as valid or invalid, and an
invalid feature's issues are collected. -/
def batchStep (geomCalc : GeomCalc) (sqrtFn : ℚ → ℚ) (res : BatchResults) (f : Feature) :
    BatchResults :=
  let validation := validateSingleFeature geomCalc sqrtFn f
  if validation.isValid then
    { res with validFeatures := res.validFeatures + 1 }
  else
    { res with invalidFeatures := res.invalidFeatures + 1,
               issues := res.issues ++ validation.issues }

/-- The per-feature loop of `validateBorders` (lines 65-80): every feature
is validated; `validateSingleFeature` is total, so one bad feature never
aborts the batch. -/
def validateBorders (geomCalc : GeomCalc) (sqrtFn : ℚ → ℚ) (features : List Feature) :
    BatchResults :=
  features.foldl (batchStep geomCalc sqrtFn)
    { totalFeatures := features.length, validFeatures := 0, invalidFeatures := 0, issues := [] }

/-- A geometry oracle that always throws (a failing projection call). -/
def geomCalcFail : GeomCalc := fun _ => .error "Projection failed"

/-- A geometry oracle returning an unremarkable area (2·10¹² m² = 2·10⁶
km²) and length (10⁷ m = 10⁴ km), inside all warning thresholds. -/
def geomCalcOk : GeomCalc := fun _ => .ok (2000000000000, 10000000)

/-- A trivial `Math.sqrt` oracle for concrete evaluations. -/
def sqrtOne : ℚ → ℚ := fun _ => 1

/-- Claim-C3 evaluation input: a fully well-formed Polygon feature. -/
def featureC3 : Feature :=
  { type := some "Feature", properties := some ⟨some "FRA", some "France"⟩,
    geometry := some (.polygonG [[(0, 0), (1, 0), (1, 1), (0, 0)]]) }

/-- Claim-C4 evaluation input: a MultiPolygon whose only ring has three
points and is not closed. -/
def featureC4 : Feature :=
  { type := some "Feature", properties := some ⟨some "ABC", some "Testland"⟩,
    geometry := some (.multiPolygonG [[[(0, 0), (1, 0), (1, 1)]]]) }

/-- Claim-C5 evaluation input: an enclave country (VAT) with a missing
geometry. -/
def featureC5 : Feature :=
  { type := some "Feature", properties := some ⟨some "VAT", some "Vatican"⟩,
    geometry := none }

/-- Claim-C10 counterexample input: a closed 4-point ring whose every
coordinate has both longitude (200) and latitude (95) out of range. -/
def featureC10 : Feature :=
  { type := some "Feature", properties := some ⟨some "XYZ", some "Nowhere"⟩,
    geometry := some (.polygonG [[(200, 95), (200, 95), (200, 95), (200, 95)]]) }

/-- Claim-C10 witness input: a well-formed Polygon with all coordinates in
range. -/
def featureC10W : Feature :=
  { type := some "Feature", properties := some ⟨some "DEU", some "Germany"⟩,
    geometry := some (.polygonG [[(0, 0), (1, 0), (1, 1), (0, 0)]]) }

/-- Claim-C5 witness input: a well-formed enclave-country Polygon (all six
checks run and their issues concatenate). -/
def featureC5W : Feature :=
  { type := some "Feature", properties := some ⟨some "SMR", some "San Marino"⟩,
    geometry := some (.polygonG [[(12, 43), (13, 43), (13, 44), (12, 43)]]) }

end BorderVerification

namespace IndexService

/-! Helper lemmas about the index-engine embedding. -/

theorem mem_addUnique (l : List String) (x y : String) :
    y ∈ addUnique l x ↔ y ∈ l ∨ y = x := by
  unfold addUnique
  split
  · rename_i hx
    constructor
    · exact Or.inl
    · rintro (h | rfl)
      · exact h
      · exact hx
  · simp [List.mem_append]

theorem mem_foldl_addUnique (l : List String) (acc : List String) (x : String) :
    x ∈ l.foldl addUnique acc ↔ x ∈ acc ∨ x ∈ l := by
  induction l generalizing acc with
  | nil => simp
  | cons y ys ih =>
    rw [List.foldl_cons, ih, mem_addUnique]
    simp [or_assoc]

theorem mem_keys_of_lookup {β : Type} {l : List (String × β)} {k : String} {v : β}
    (h : l.lookup k = some v) : k ∈ l.map Prod.fst := by
  induction l with
  | nil => simp [List.lookup] at h
  | cons p ps ih =>
    obtain ⟨k', v'⟩ := p
    by_cases hkk : k = k'
    · subst hkk
      exact List.mem_cons_self _ _
    · rw [List.lookup, beq_false_of_ne hkk] at h
      exact List.mem_cons_of_mem _ (ih h)

theorem step_validScores_length (ns : NormalizedScores) (weights : List (String × ℚ))
    (country : String) (acc : CountryAcc) (criterion : String) :
    (stepCriterion ns weights country acc criterion).validScores.length
      = acc.validScores.length + (if isValidFor ns criterion country then 1 else 0) := by
  unfold stepCriterion isValidFor
  cases h : lookupCrit ns criterion country with
  | none => simp
  | some cd =>
    cases hs : cd.normalizedScore with
    | none => simp [hs]
    | some s => simp [hs]

theorem foldl_validScores_length (ns : NormalizedScores) (weights : List (String × ℚ))
    (country : String) (l : List String) (acc : CountryAcc) :
    ((l.foldl (stepCriterion ns weights country) acc).validScores).length
      = acc.validScores.length + l.countP (fun cr => isValidFor ns cr country) := by
  induction l generalizing acc with
  | nil => simp
  | cons cr crs ih =>
    rw [List.foldl_cons, ih, List.countP_cons, step_validScores_length]
    by_cases h : isValidFor ns cr country <;> simp [h] <;> try omega

theorem foldCountry_validScores_length (ns : NormalizedScores)
    (weights : List (String × ℚ)) (country : String) :
    (foldCountry ns weights country).validScores.length = validCriteriaCount ns country := by
  unfold foldCountry validCriteriaCount
  rw [foldl_validScores_length]
  simp [initCountryAcc]

unseal Rat.add Rat.mul Rat.sub Rat.inv in
theorem gateThreshold_eq : gateThreshold = 4 := by decide

theorem mem_countriesOf_of_valid (ns : NormalizedScores) (cr country : String)
    (hcr : cr ∈ criteria) (h : isValidFor ns cr country = true) :
    country ∈ countriesOf ns := by
  unfold countriesOf
  rw [mem_foldl_addUnique]
  right
  rw [List.mem_flatten]
  refine ⟨((ns.lookup cr).getD []).map Prod.fst, List.mem_map_of_mem _ hcr, ?_⟩
  unfold isValidFor lookupCrit at h
  cases hl : (((ns.lookup cr).getD []).lookup country) with
  | none => rw [hl] at h; simp at h
  | some cd => exact mem_keys_of_lookup hl

theorem core_keys (ns : NormalizedScores) (year : ℤ) (schemeName : String) (now : ℤ) :
    (calculateCompositeIndexCore ns year schemeName now).map Prod.fst
      = (countriesOf ns).filter (fun c => passesGate ns (schemeWeights schemeName) c) := by
  simp only [calculateCompositeIndexCore]
  split
  · simp [Function.comp_def]
  · simp [Function.comp_def]

/-! Claim theorems for the index engine. -/

/-- Claim C2 (confirmed): a country appears in the result map of
`calculateCompositeIndex` for a year if and only if it has valid
(non-null) normalized scores for at least `ceil(7/2) = 4` of the 7 defined
criteria; in particular a country with exactly 3 valid criteria is
entirely absent, and one with exactly 4 is present. -/
theorem completeness_gate_iff (ns : NormalizedScores) (year : ℤ) (schemeName : String)
    (now : ℤ) (country : String) :
    country ∈ (calculateCompositeIndexCore ns year schemeName now).map Prod.fst ↔
      4 ≤ validCriteriaCount ns country := by
  rw [core_keys, List.mem_filter]
  have hgate : ∀ c, (passesGate ns (schemeWeights schemeName) c = true) ↔
      (4 ≤ validCriteriaCount ns c) := by
    intro c
    unfold passesGate
    rw [foldCountry_validScores_length, gateThreshold_eq]
    simp
  constructor
  · rintro ⟨_, hg⟩
    exact (hgate _).mp hg
  · intro h4
    refine ⟨?_, (hgate _).mpr h4⟩
    have hpos : 0 < validCriteriaCount ns country := by omega
    unfold validCriteriaCount at hpos
    obtain ⟨cr, hcr, hvalid⟩ := List.countP_pos_iff.mp hpos
    exact mem_countriesOf_of_valid ns cr country hcr hvalid

unseal Rat.add Rat.mul Rat.sub Rat.inv in
/-- Claim C1 (code bug): evaluation of the ranking pass at a concrete
input.  With one included country whose four equal-weight component scores
are 10.1, 10.2, 10.2, 10.2, the unrounded composite score is 10.175 but
the stored `compositeScore` is the rounded 10.2; the second pass looks the
rounded score up (`indexOf`) in the list of unrounded scores, misses, and
produces `rank = 0` and `percentile = 200` where the claim requires
`rank = 1` and `percentile = 100` for the sole country. -/
theorem ranking_failing_eval :
    ((calculateCompositeIndexCore testNsC1 2020 "equal" 0).lookup "AAA").map
        (fun e => (e.compositeScore, e.ranking))
      = some (51/5, some ⟨0, 200, 1⟩) := by
  decide

/-- Claim C6 helper: bounds on `jsRound` for inputs in `[0, 1000]`. -/
theorem jsRound_bounds (x : ℚ) (h0 : 0 ≤ x) (h1 : x ≤ 1000) :
    0 ≤ jsRound x ∧ jsRound x ≤ 1000 := by
  unfold jsRound
  constructor
  · exact Int.le_floor.mpr (by push_cast; linarith)
  · have hle : (Int.floor (x + 1/2) : ℚ) ≤ x + 1/2 := Int.floor_le _
    have : (Int.floor (x + 1/2) : ℚ) < 1001 := by linarith
    exact_mod_cast Int.lt_add_one_iff.mp (by exact_mod_cast this)

/-- Claim C6 (confirmed): for every numeric raw value and stats with
`p90 > p10`, `normalizeValue` returns a score in `[0, 100]`: the raw value
is clamped into `[p10, p90]`, rescaled to `[0, 1]`, optionally inverted,
scaled to `[0, 100]` and rounded to one decimal place. -/
theorem normalize_bounds (v : ℚ) (stats : Stats) (config : CriterionConfig)
    (h : stats.p10 < stats.p90) (r : ℚ)
    (hr : normalizeValue (some v) stats config = some r) :
    0 ≤ r ∧ r ≤ 100 := by
  have hpos : 0 < stats.p90 - stats.p10 := by linarith
  have hne : ¬(stats.p90 - stats.p10 = 0) := ne_of_gt hpos
  unfold normalizeValue at hr
  simp only [hne, if_false, Option.some.injEq] at hr
  set n0 := (max stats.p10 (min stats.p90 v) - stats.p10) / (stats.p90 - stats.p10) with hn0
  have h0 : 0 ≤ n0 := by
    apply div_nonneg _ hpos.le
    have := le_max_left stats.p10 (min stats.p90 v)
    linarith
  have h1 : n0 ≤ 1 := by
    rw [hn0, div_le_one hpos]
    have hmax : max stats.p10 (min stats.p90 v) ≤ stats.p90 :=
      max_le h.le (min_le_left _ _)
    linarith
  have hinv : 0 ≤ (if config.invertScore then 1 - n0 else n0) ∧
      (if config.invertScore then 1 - n0 else n0) ≤ 1 := by
    split <;> constructor <;> linarith
  obtain ⟨hb0, hb1⟩ := jsRound_bounds ((if config.invertScore then 1 - n0 else n0) * 1000)
    (by nlinarith [hinv.1]) (by nlinarith [hinv.2])
  rw [← hr]
  constructor
  · positivity
  · rw [div_le_iff₀ (by norm_num : (0:ℚ) < 10)]
    calc (jsRound ((if config.invertScore then 1 - n0 else n0) * 1000) : ℚ)
        ≤ (1000 : ℚ) := by exact_mod_cast hb1
      _ ≤ 100 * 10 := by norm_num

unseal Rat.add Rat.mul Rat.sub Rat.inv in
/-- Witness for the claim-C6 theorem at a concrete input: raw value 50
with `p10 = 0 < p90 = 100` normalizes to 50, which lies in `[0, 100]`. -/
theorem normalize_bounds_witness : 0 ≤ (50 : ℚ) ∧ (50 : ℚ) ≤ 100 :=
  normalize_bounds 50 ⟨0, 100, 50, 25, 0, 100, 0, 100⟩ ⟨"climate", false, 1, "", ""⟩
    (by norm_num) 50 (by decide)

/-- Claim C7 (confirmed): when a criterion's raw series contains zero
valid (numeric, non-NaN) values, `calculateGlobalStats` returns the
documented neutral default stats `min=0, max=100, mean=50, std=25, p10=10,
p90=90` (the internal throw is caught by the function's own catch, so
nothing propagates to the caller — the embedding is a total function). -/
theorem global_stats_default (sqrtFn : ℚ → ℚ) (data : RawSeries)
    (h : validValues data = []) :
    calculateGlobalStats sqrtFn data = defaultStats := by
  unfold calculateGlobalStats
  simp [h]

/-- Witness for the claim-C7 theorem: a series with one missing value has
no valid values and yields the neutral default stats. -/
theorem global_stats_default_witness :
    validValues [((2000 : ℤ), [("USA", (none : Option ℚ))])] = [] ∧
      calculateGlobalStats (fun q => q) [((2000 : ℤ), [("USA", none)])] = defaultStats :=
  ⟨rfl, global_stats_default _ _ rfl⟩

/-- Claim C9 (confirmed): a weighting-scheme name that is not in the
scheme registry falls back to the `equal` scheme's weights, which assign
1.0 to every criterion; the lookup path is total, so it never fails. -/
theorem unknown_scheme_fallback (schemeName : String)
    (h : WEIGHTING_SCHEMES.lookup schemeName = none) :
    schemeWeights schemeName = equalWeights ∧
      ∀ c ∈ criteria, equalWeights.lookup c = some 1 := by
  constructor
  · unfold schemeWeights
    rw [h]
  · intro c hc
    fin_cases hc <;> rfl

/-- Witness for the claim-C9 theorem: the unknown name `bogus` falls back
to the equal weights. -/
theorem unknown_scheme_fallback_witness :
    schemeWeights "bogus" = equalWeights ∧
      ∀ c ∈ criteria, equalWeights.lookup c = some 1 :=
  unknown_scheme_fallback "bogus" (by rfl)

/-- Helper for claim C8: a fresh cached entry is returned as-is. -/
theorem calc_result_cached (st : IndexState) (now : ℤ) (ns : NormalizedScores)
    (year : ℤ) (schemeName : String) (results : List (String × CompositeEntry))
    (h1 : st.compositeIndexCache.lookup (year, schemeName) = some results)
    (h2 : now - st.lastCacheUpdate < CACHE_DURATION) :
    calculateCompositeIndex st now ns year schemeName = (results, st) := by
  simp only [calculateCompositeIndex]
  rw [h1]
  simp [h2]

/-- Helper for claim C8: after any call, the state's cache holds the
returned result under the call's key. -/
theorem calc_state_lookup (st : IndexState) (now : ℤ) (ns : NormalizedScores)
    (year : ℤ) (schemeName : String) :
    (calculateCompositeIndex st now ns year schemeName).2.compositeIndexCache.lookup
        (year, schemeName)
      = some (calculateCompositeIndex st now ns year schemeName).1 := by
  simp only [calculateCompositeIndex]
  cases hlk : st.compositeIndexCache.lookup (year, schemeName) with
  | some cached =>
    simp only [hlk]
    split
    · exact hlk
    · simp [List.lookup]
  | none =>
    simp only [hlk]
    simp [List.lookup]

/-- Claim C8 (confirmed): with no intervening cache-clear or data change,
a second call to `calculateCompositeIndex` with the same year and scheme
within the cache freshness window returns output identical to the first
call's (the memoized value itself); recomputation is deterministic by
construction since the embedded computation is a pure function of the
normalized scores, the clock, and the cache state. -/
theorem composite_idempotent (st : IndexState) (t1 t2 : ℤ) (ns : NormalizedScores)
    (year : ℤ) (schemeName : String)
    (h : t2 - (calculateCompositeIndex st t1 ns year schemeName).2.lastCacheUpdate
        < CACHE_DURATION) :
    (calculateCompositeIndex (calculateCompositeIndex st t1 ns year schemeName).2 t2
        ns year schemeName).1
      = (calculateCompositeIndex st t1 ns year schemeName).1 := by
  have hl := calc_state_lookup st t1 ns year schemeName
  rw [calc_result_cached _ t2 ns year schemeName _ hl h]

/-- Witness for the claim-C8 theorem: two calls 100 ms apart on an
initially empty cache return the same result. -/
theorem composite_idempotent_witness :
    (200 - (calculateCompositeIndex ⟨[], 0⟩ 100 [] 2020 "equal").2.lastCacheUpdate
        < CACHE_DURATION) ∧
      (calculateCompositeIndex (calculateCompositeIndex ⟨[], 0⟩ 100 [] 2020 "equal").2 200
          [] 2020 "equal").1
        = (calculateCompositeIndex ⟨[], 0⟩ 100 [] 2020 "equal").1 :=
  ⟨by decide, composite_idempotent ⟨[], 0⟩ 100 200 [] 2020 "equal" (by decide)⟩

end IndexService

namespace BorderVerification

theorem validateGeometry_ok (f : Feature) (r : FeatureResult) (g : GeometryData)
    (h : f.geometry = some g) :
    validateGeometry f r = .ok
      { r with isValid := if (geomCheckIssuesG g).isEmpty then r.isValid else false,
               issues := r.issues ++ geomCheckIssuesG g } := by
  unfold validateGeometry
  rw [h]
  cases g with
  | polygonG rings =>
    simp [geomCheckIssuesG, geomType, strFalsy, validTypes, validatePolygonCoordinates]
  | multiPolygonG polys =>
    simp [geomCheckIssuesG, geomType, strFalsy, validTypes, validateMultiPolygonCoordinates]
  | otherG t =>
    by_cases h1 : strFalsy t
    · simp [geomCheckIssuesG, geomType, h1]
    · by_cases h2 : (t.getD "") ∈ validTypes
      · simp [geomCheckIssuesG, geomType, h1, h2]
      · simp [geomCheckIssuesG, geomType, h1, h2]

theorem extract_ok_of_noThrow (f : Feature) (h : geomNoThrow f.geometry = true) :
    extractAllCoordinatesE f.geometry = .ok (extractedCoords f) := by
  unfold extractedCoords
  cases hg : f.geometry with
  | none => rw [hg] at h; simp [geomNoThrow] at h
  | some g =>
    cases g with
    | polygonG rings => rfl
    | multiPolygonG polys => rfl
    | otherG t =>
      rw [hg] at h
      unfold geomNoThrow at h
      by_cases hc : (t = some "Polygon" ∨ t = some "MultiPolygon")
      · simp [hc] at h
      · simp [extractAllCoordinatesE, hc, Except.toOption]

theorem validateCoordinates_ok (f : Feature) (r : FeatureResult)
    (h : geomNoThrow f.geometry = true) :
    validateCoordinates f r = .ok
      { r with
        issues := r.issues ++ coordCheckIssues f,
        isValid := if 0 < (coordScan (extractedCoords f)).2.1 then false else r.isValid,
        metrics := { r.metrics with
          totalCoordinates := some (coordScan (extractedCoords f)).1,
          invalidCoordinates := some (coordScan (extractedCoords f)).2.1,
          coordinateValidityRate := some (validityRate (coordScan (extractedCoords f)).1
            (coordScan (extractedCoords f)).2.1) } } := by
  unfold validateCoordinates coordCheckIssues
  rw [extract_ok_of_noThrow f h]

theorem validateAreaAndPerimeter_issues (gc : GeomCalc) (sq : ℚ → ℚ) (f : Feature)
    (r : FeatureResult) :
    (validateAreaAndPerimeter gc sq f r).issues = r.issues ++ areaCheckIssues gc f := by
  unfold validateAreaAndPerimeter areaCheckIssues
  cases gc f with
  | error msg => simp
  | ok p => simp

theorem validateAreaAndPerimeter_isValid (gc : GeomCalc) (sq : ℚ → ℚ) (f : Feature)
    (r : FeatureResult) :
    (validateAreaAndPerimeter gc sq f r).isValid = r.isValid := by
  unfold validateAreaAndPerimeter
  cases gc f with
  | error msg => simp
  | ok p => simp

theorem validateAreaAndPerimeter_rate (gc : GeomCalc) (sq : ℚ → ℚ) (f : Feature)
    (r : FeatureResult) :
    (validateAreaAndPerimeter gc sq f r).metrics.coordinateValidityRate
      = r.metrics.coordinateValidityRate := by
  unfold validateAreaAndPerimeter
  cases gc f with
  | error msg => simp
  | ok p => simp

theorem validateBorderComplexity_ok (sq : ℚ → ℚ) (f : Feature) (r : FeatureResult)
    (h : geomNoThrow f.geometry = true) :
    validateBorderComplexity sq f r = .ok
      { r with
        issues := r.issues ++ complexityCheckIssues f,
        metrics := { r.metrics with
          vertexCount := some (extractedCoords f).length,
          averageSegmentLength := some
            (if 0 < (segmentLengths sq (extractedCoords f)).length then
              (segmentLengths sq (extractedCoords f)).sum
                / ((segmentLengths sq (extractedCoords f)).length : ℚ)
             else 0) } } := by
  unfold validateBorderComplexity complexityCheckIssues
  rw [extract_ok_of_noThrow f h]

theorem validateSpecialCases_ok (f : Feature) (r : FeatureResult) (g : GeometryData)
    (h : f.geometry = some g) :
    validateSpecialCases f r = .ok { r with issues := r.issues ++ specialCheckIssues f } := by
  unfold validateSpecialCases specialCheckIssues archipelagoIssues
  by_cases harch : memOpt (countryCodeOf f) ARCHIPELAGOS
  · rw [h]
    simp [harch, List.append_assoc]
  · simp [harch]

end BorderVerification
namespace BorderVerification

theorem validateSingleFeature_noThrow (gc : GeomCalc) (sq : ℚ → ℚ) (f : Feature)
    (h : geomNoThrow f.geometry = true) :
    (validateSingleFeature gc sq f).issues
        = structIssues f ++ geomCheckIssues f ++ coordCheckIssues f
          ++ areaCheckIssues gc f ++ complexityCheckIssues f ++ specialCheckIssues f
      ∧ (validateSingleFeature gc sq f).metrics.coordinateValidityRate
          = some (validityRate (coordScan (extractedCoords f)).1
              (coordScan (extractedCoords f)).2.1) := by
  obtain ⟨g, hg⟩ : ∃ g, f.geometry = some g := by
    cases hgeo : f.geometry with
    | none => rw [hgeo] at h; simp [geomNoThrow] at h
    | some g => exact ⟨g, rfl⟩
  have hgi : geomCheckIssues f = geomCheckIssuesG g := by
    unfold geomCheckIssues; rw [hg]
  simp only [validateSingleFeature]
  rw [validateGeometry_ok f _ g hg]
  simp only [bind, Except.bind]
  rw [validateCoordinates_ok f _ h]
  simp only [bind, Except.bind]
  rw [validateBorderComplexity_ok sq f _ h]
  simp only [bind, Except.bind]
  rw [validateSpecialCases_ok f _ g hg]
  simp only [bind, Except.bind]
  simp only [pure, Except.pure]
  constructor
  · simp [validateAreaAndPerimeter_issues, validateFeatureStructure, initResult, hgi,
      List.append_assoc]
  · simp [validateAreaAndPerimeter_rate, validateFeatureStructure, initResult]

end BorderVerification
namespace BorderVerification

theorem validateSingleFeature_throw (gc : GeomCalc) (sq : ℚ → ℚ) (f : Feature)
    (h : geomNoThrow f.geometry = false) :
    (validateSingleFeature gc sq f).isValid = false
      ∧ (validateSingleFeature gc sq f).issues
          = structIssues f ++ geomCheckIssues f ++ [validationFailureIssue f] := by
  cases hg : f.geometry with
  | none =>
    simp only [validateSingleFeature]
    rw [show validateGeometry f (validateFeatureStructure f (initResult f))
        = .error (typeErrorMsg, validateFeatureStructure f (initResult f)) by
      unfold validateGeometry; rw [hg]]
    simp only [bind, Except.bind]
    constructor
    · trivial
    · simp [validateFeatureStructure, initResult, geomCheckIssues, hg, validationFailureIssue]
  | some g =>
    cases g with
    | polygonG rings => rw [hg] at h; simp [geomNoThrow] at h
    | multiPolygonG polys => rw [hg] at h; simp [geomNoThrow] at h
    | otherG t =>
      rw [hg] at h
      unfold geomNoThrow at h
      by_cases hc : (t = some "Polygon" ∨ t = some "MultiPolygon")
      · have hext : extractAllCoordinatesE f.geometry = .error typeErrorMsg := by
          unfold extractAllCoordinatesE
          rw [hg]
          simp [hc]
        simp only [validateSingleFeature]
        rw [validateGeometry_ok f _ (GeometryData.otherG t) hg]
        simp only [bind, Except.bind]
        rw [show validateCoordinates f
            ({ validateFeatureStructure f (initResult f) with
                isValid := if (geomCheckIssuesG (GeometryData.otherG t)).isEmpty then
                    (validateFeatureStructure f (initResult f)).isValid else false,
                issues := (validateFeatureStructure f (initResult f)).issues
                  ++ geomCheckIssuesG (GeometryData.otherG t) })
            = .error (typeErrorMsg,
              { validateFeatureStructure f (initResult f) with
                isValid := if (geomCheckIssuesG (GeometryData.otherG t)).isEmpty then
                    (validateFeatureStructure f (initResult f)).isValid else false,
                issues := (validateFeatureStructure f (initResult f)).issues
                  ++ geomCheckIssuesG (GeometryData.otherG t) }) by
          unfold validateCoordinates; rw [hext]]
        simp only [bind, Except.bind]
        constructor
        · trivial
        · simp [validateFeatureStructure, initResult, geomCheckIssues, hg, validationFailureIssue,
            List.append_assoc]
      · simp [hc] at h

theorem coordStep_fst (st : ℕ × ℕ × List Issue) (c : Coord) :
    (coordStep st c).1 = st.1 + 1 := rfl

theorem coordStep_invalid_le (st : ℕ × ℕ × List Issue) (c : Coord) :
    (coordStep st c).2.1 ≤ st.2.1 + 2 := by
  unfold coordStep
  dsimp only
  split_ifs <;> omega

theorem coordScan_foldl_fst (coords : List Coord) (st : ℕ × ℕ × List Issue) :
    (coords.foldl coordStep st).1 = st.1 + coords.length := by
  induction coords generalizing st with
  | nil => simp
  | cons c cs ih =>
    rw [List.foldl_cons, ih, coordStep_fst]
    simp only [List.length_cons]
    omega

theorem coordScan_fst (coords : List Coord) : (coordScan coords).1 = coords.length := by
  unfold coordScan
  rw [coordScan_foldl_fst]
  simp

theorem coordScan_foldl_invalid (coords : List Coord) (st : ℕ × ℕ × List Issue) :
    (coords.foldl coordStep st).2.1 ≤ st.2.1 + 2 * coords.length := by
  induction coords generalizing st with
  | nil => simp
  | cons c cs ih =>
    have h1 := ih (coordStep st c)
    have h2 := coordStep_invalid_le st c
    rw [List.foldl_cons]
    simp only [List.length_cons]
    omega

theorem coordScan_invalid_le (coords : List Coord) :
    (coordScan coords).2.1 ≤ 2 * coords.length := by
  unfold coordScan
  have := coordScan_foldl_invalid coords (0, 0, [])
  simpa using this

theorem batch_processes_all (gc : GeomCalc) (sq : ℚ → ℚ) (fs : List Feature) :
    (validateBorders gc sq fs).validFeatures + (validateBorders gc sq fs).invalidFeatures
      = fs.length := by
  unfold validateBorders
  suffices hgen : ∀ (l : List Feature) (init : BatchResults),
      (l.foldl (batchStep gc sq) init).validFeatures
          + (l.foldl (batchStep gc sq) init).invalidFeatures
        = init.validFeatures + init.invalidFeatures + l.length by
    rw [hgen]
    simp
  intro l
  induction l with
  | nil => intro init; simp
  | cons f fs ih =>
    intro init
    rw [List.foldl_cons, ih]
    simp only [batchStep]
    split <;> simp <;> omega

end BorderVerification
namespace BorderVerification

unseal Rat.add Rat.mul Rat.sub Rat.inv in
/-- Claim C3 (code bug): evaluation at a concrete input.  For a fully
well-formed Polygon feature whose area/perimeter computation throws
(failing projection-library call), the catch block of
`validateAreaAndPerimeter` records an ERROR issue (category `METRICS`) but
does not set `isValid = false`, so the feature ends with an ERROR issue
and `isValid = true` — contradicting the claimed equivalence. -/
theorem area_error_leaves_isValid :
    (validateSingleFeature geomCalcFail sqrtOne featureC3).isValid = true
      ∧ (validateSingleFeature geomCalcFail sqrtOne featureC3).issues.countP
          (fun i => i.type == IssueType.ERROR) = 1 := by decide

unseal Rat.add Rat.mul Rat.sub Rat.inv in
/-- Claim C4 (code bug): evaluation at a concrete input.  A MultiPolygon
feature whose only ring has three points and is open yields no issue at
all and stays valid, because `validateMultiPolygonCoordinates` hands
`validatePolygonCoordinates` a spread copy of the result whose mutations
are discarded; the third conjunct shows the very ring check, applied to
that ring directly, does record a `COORDINATES` ERROR. -/
theorem multipolygon_ring_errors_discarded :
    (validateSingleFeature geomCalcOk sqrtOne featureC4).isValid = true
      ∧ (validateSingleFeature geomCalcOk sqrtOne featureC4).issues = []
      ∧ (validatePolygonCoordinates [[(0, 0), (1, 0), (1, 1)]]
            (initResult featureC4)).issues.countP
          (fun i => i.type == IssueType.ERROR && i.category == "COORDINATES") = 1 := by
  decide

unseal Rat.add Rat.mul Rat.sub Rat.inv in
/-- Claim C5 counterexample: for the enclave country VAT with a missing
geometry, the special-case check on its own would append exactly one INFO
issue, but `validateSingleFeature` reports no INFO issue at all: the
`TypeError` thrown inside `validateGeometry` aborts every later check of
that feature, not only the geometry-shape checks. -/
theorem missing_geometry_skips_later_checks :
    (match validateSpecialCases featureC5 (initResult featureC5) with
     | .ok r => r.issues.countP (fun i => i.type == IssueType.INFO)
     | .error _ => 0) = 1
      ∧ (validateSingleFeature geomCalcOk sqrtOne featureC5).issues.countP
          (fun i => i.type == IssueType.INFO) = 0 := by
  decide

/-- Claim C5 (corrected): when no check throws, all checks of the fixed
sequence run and the reported issue set is exactly the concatenation of
every check's issues, each independent of earlier recorded failures; when
a check throws (a missing geometry, or a Polygon/MultiPolygon type with a
missing coordinates array), the remaining checks of that feature are
skipped and the throw is caught and converted into a `VALIDATION_FAILURE`
ERROR on the result as accumulated so far; the batch loop still processes
every feature. -/
theorem checks_run_or_throw (gc : GeomCalc) (sq : ℚ → ℚ) (f : Feature) :
    (geomNoThrow f.geometry = true →
      (validateSingleFeature gc sq f).issues
        = structIssues f ++ geomCheckIssues f ++ coordCheckIssues f
          ++ areaCheckIssues gc f ++ complexityCheckIssues f ++ specialCheckIssues f)
      ∧ (geomNoThrow f.geometry = false →
        (validateSingleFeature gc sq f).isValid = false
          ∧ (validateSingleFeature gc sq f).issues
              = structIssues f ++ geomCheckIssues f ++ [validationFailureIssue f])
      ∧ ∀ fs : List Feature,
          (validateBorders gc sq fs).validFeatures + (validateBorders gc sq fs).invalidFeatures
            = fs.length :=
  ⟨fun h => (validateSingleFeature_noThrow gc sq f h).1,
   fun h => validateSingleFeature_throw gc sq f h,
   fun fs => batch_processes_all gc sq fs⟩

unseal Rat.add Rat.mul Rat.sub Rat.inv in
/-- Witness for the claim-C5 theorem: for a well-formed enclave-country
Polygon feature no check throws, and the issue list is the concatenation
of all six checks' contributions. -/
theorem checks_run_or_throw_witness :
    (validateSingleFeature geomCalcOk sqrtOne featureC5W).issues
      = structIssues featureC5W ++ geomCheckIssues featureC5W ++ coordCheckIssues featureC5W
        ++ areaCheckIssues geomCalcOk featureC5W ++ complexityCheckIssues featureC5W
        ++ specialCheckIssues featureC5W :=
  (checks_run_or_throw geomCalcOk sqrtOne featureC5W).1 (by decide)

unseal Rat.add Rat.mul Rat.sub Rat.inv in
/-- Claim C10 counterexample: a feature whose four extracted coordinates
each have both longitude and latitude out of range gets
`coordinateValidityRate = -100`, outside the claimed `[0, 100]`: the
invalid counter is incremented twice per such coordinate. -/
theorem validity_rate_negative_eval :
    (validateSingleFeature geomCalcOk sqrtOne featureC10).metrics.coordinateValidityRate
        = some (JsNum.num (-100))
      ∧ ¬((0 : ℚ) ≤ -100) := by decide

/-- Claim C10 (corrected): for every feature whose coordinate extraction
succeeds, with at least one extracted coordinate the reported
`coordinateValidityRate` is a number in `[-100, 100]` (each coordinate can
add up to two to the invalid counter, so the rate can be negative); with
zero extracted coordinates the unguarded division `(0 - 0) / 0` makes the
rate NaN rather than a number. -/
theorem validity_rate_cases (gc : GeomCalc) (sq : ℚ → ℚ) (f : Feature)
    (h : geomNoThrow f.geometry = true) :
    (extractedCoords f = [] →
      (validateSingleFeature gc sq f).metrics.coordinateValidityRate = some JsNum.nan)
      ∧ (extractedCoords f ≠ [] →
        ∃ q : ℚ, (validateSingleFeature gc sq f).metrics.coordinateValidityRate
            = some (JsNum.num q) ∧ -100 ≤ q ∧ q ≤ 100) := by
  have hrate := (validateSingleFeature_noThrow gc sq f h).2
  constructor
  · intro hemp
    rw [hrate, hemp]
    simp [coordScan, validityRate, jsDiv]
  · intro hne
    have hlen := coordScan_fst (extractedCoords f)
    have hinv := coordScan_invalid_le (extractedCoords f)
    have ht : 0 < (extractedCoords f).length := List.length_pos.mpr hne
    rw [hrate, hlen]
    have htQ : (0 : ℚ) < ((extractedCoords f).length : ℚ) := by exact_mod_cast ht
    have hiQ : ((coordScan (extractedCoords f)).2.1 : ℚ)
        ≤ 2 * ((extractedCoords f).length : ℚ) := by exact_mod_cast hinv
    have hi0 : (0 : ℚ) ≤ ((coordScan (extractedCoords f)).2.1 : ℚ) := by positivity
    refine ⟨(((extractedCoords f).length : ℚ) - ((coordScan (extractedCoords f)).2.1 : ℚ))
        * 100 / ((extractedCoords f).length : ℚ), ?_, ?_, ?_⟩
    · unfold validityRate jsDiv
      rw [if_neg htQ.ne']
    · rw [le_div_iff₀ htQ]
      linarith
    · rw [div_le_iff₀ htQ]
      linarith

unseal Rat.add Rat.mul Rat.sub Rat.inv in
/-- Witness for the claim-C10 theorem: a well-formed Polygon with four
in-range coordinates has a numeric validity rate within `[-100, 100]`. -/
theorem validity_rate_cases_witness :
    ∃ q : ℚ, (validateSingleFeature geomCalcOk sqrtOne featureC10W).metrics.coordinateValidityRate
        = some (JsNum.num q) ∧ -100 ≤ q ∧ q ≤ 100 :=
  (validity_rate_cases geomCalcOk sqrtOne featureC10W (by decide)).2 (by decide)

end BorderVerification
